import Mathlib

/-!
Verification of the PixArtM event photo-booth backend.

This file gives a shallow embedding of the serverless functions of the
repository and proves properties of the event lifecycle and capture-slot
accounting stated in the specification.

Embedded code:
* supabase/functions/reserve-capture/index.ts  (direct reservation, CAS write)
* supabase/functions/auto-cleanup/index.ts     (scheduled gallery cleanup)
* firebase/functions/src/reserveCapture.ts     (reserveCapture,
  reserveCaptureWithBuffer, confirmCapture)
* firebase/functions/src/utils/validation.ts   (validateCapture and friends)
* firebase/functions/src/generateAlbumZip.ts and the Supabase
  generate-album-zip edge function                (ZIP cache decision)

Timestamps are embedded as integers counting milliseconds, matching the
JavaScript Date.getTime representation used for every comparison in the
source.  Counters are embedded as integers.
-/

/-- Lifecycle status of an event: draft, active, expired, cleaned. -/
inductive EventStatus where
  | draft
  | active
  | expired
  | cleaned
deriving DecidableEq, Repr

/-- Analytics blob stored on an event row: totalCaptures, peakHour,
lastCaptureAt (embedded as a millisecond timestamp). -/
structure Analytics where
  totalCaptures : Int
  peakHour : Int
  lastCaptureAt : Int
deriving DecidableEq, Repr

/-- One row of the events table, snake_case fields as in the Supabase
schema.  Only the fields read or written by the embedded functions are
kept. -/
structure Event where
  status : EventStatus
  start_date : Int
  end_date : Int
  capture_count : Int
  photo_limit : Int
  reserved_count : Int
  gallery_expires_at : Option Int
  analytics : Option Analytics
deriving DecidableEq, Repr

/-- Milliseconds in a day, the factor 24 * 60 * 60 * 1000 from the source. -/
def msPerDay : Int := 24 * 60 * 60 * 1000

/-- Embeds Date.getHours applied to a millisecond timestamp (UTC). -/
def hourOf (now : Int) : Int := (now / (60 * 60 * 1000)) % 24

/-- The event summary included in reservation responses. -/
structure EventInfo where
  captureCount : Int
  photoLimit : Int
  status : EventStatus
deriving DecidableEq, Repr

/-- JSON body and HTTP status of a reserve-capture response. -/
structure ReserveResponse where
  success : Bool
  message : Option String
  captureNumber : Option Int
  eventInfo : Option EventInfo
  httpStatus : Nat
deriving DecidableEq, Repr

/-- The update payload the Supabase handler sends: the new counter, the new
analytics blob, and optionally the expired status with a gallery expiry. -/
structure UpdateData where
  capture_count : Int
  analytics : Analytics
  set_expired : Bool
  gallery_expires_at : Option Int
deriving DecidableEq, Repr

/-- Applies an UpdateData payload to an event row, as the database would. -/
def applyUpdate (e : Event) (u : UpdateData) : Event :=
  { e with
      capture_count := u.capture_count
      analytics := some u.analytics
      status := if u.set_expired then EventStatus.expired else e.status
      gallery_expires_at :=
        if u.set_expired then u.gallery_expires_at else e.gallery_expires_at }

/-- The unconditional auto-expire update fired on the ended branch of the
Supabase handler: status becomes expired and gallery_expires_at is set to
now + 15 days. -/
def expireUpdate (e : Event) (now : Int) : Event :=
  { e with
      status := EventStatus.expired
      gallery_expires_at := some (now + 15 * msPerDay) }

/-- What an invocation of the Supabase reserve-capture handler decides after
reading its snapshot of the event row:
either a plain failure response with no write, or the ended failure with the
unconditional auto-expire write, or a conditional (compare-and-swap) write
keyed on the capture_count value read, with the success response. -/
inductive ReserveDecision where
  | reject (resp : ReserveResponse)
  | rejectExpiring (resp : ReserveResponse)
  | attempt (expected : Int) (upd : UpdateData) (resp : ReserveResponse)
deriving DecidableEq, Repr

/-- Response for a missing event, status 404. -/
def notFoundResponse : ReserveResponse :=
  { success := false, message := some "Event not found",
    captureNumber := none, eventInfo := none, httpStatus := 404 }

/-- Response returned when the conditional update is rejected, status 409. -/
def conflictResponse : ReserveResponse :=
  { success := false,
    message := some "Concurrent update conflict, please retry",
    captureNumber := none, eventInfo := none, httpStatus := 409 }

/-- Validation chain and update computation of the Supabase reserve-capture
handler, translated check by check from the source: status is tested
against active, then now against start_date, then against end_date, then
capture_count against photo_limit; the success path builds the analytics
blob and the conditional update, expiring the event when the new counter
reaches the limit. -/
def reserveDecision (event : Event) (now : Int) : ReserveDecision :=
  if event.status ≠ EventStatus.active then
    ReserveDecision.reject
      { success := false, message := some "Event is not active",
        captureNumber := none,
        eventInfo := some
          { captureCount := event.capture_count,
            photoLimit := event.photo_limit, status := event.status },
        httpStatus := 200 }
  else if now < event.start_date then
    ReserveDecision.reject
      { success := false, message := some "Event has not started yet",
        captureNumber := none, eventInfo := none, httpStatus := 200 }
  else if event.end_date < now then
    ReserveDecision.rejectExpiring
      { success := false, message := some "Event has ended",
        captureNumber := none, eventInfo := none, httpStatus := 200 }
  else if event.photo_limit ≤ event.capture_count then
    ReserveDecision.reject
      { success := false, message := some "Photo limit reached",
        captureNumber := none,
        eventInfo := some
          { captureCount := event.capture_count,
            photoLimit := event.photo_limit, status := event.status },
        httpStatus := 200 }
  else
    let newCaptureCount := event.capture_count + 1
    let currentHour := hourOf now
    let analytics0 := event.analytics.getD
      { totalCaptures := 0, peakHour := currentHour, lastCaptureAt := now }
    let analytics1 : Analytics :=
      { totalCaptures := analytics0.totalCaptures + 1,
        peakHour := currentHour, lastCaptureAt := now }
    let shouldExpire := event.photo_limit ≤ newCaptureCount
    ReserveDecision.attempt event.capture_count
      { capture_count := newCaptureCount, analytics := analytics1,
        set_expired := shouldExpire,
        gallery_expires_at :=
          if shouldExpire then some (now + 15 * msPerDay) else none }
      { success := true, message := none,
        captureNumber := some newCaptureCount,
        eventInfo := some
          { captureCount := newCaptureCount,
            photoLimit := event.photo_limit,
            status :=
              if shouldExpire then EventStatus.expired else event.status },
        httpStatus := 200 }

/-- Commits the decision of one invocation against the current database
row.  The conditional update applies only when the row still carries the
capture_count value the invocation read; otherwise the write is rejected
and the handler answers with the conflict response.  The auto-expire write
of the ended branch is unconditional, as in the source. -/
def commitDecision (db : Event) (now : Int) :
    ReserveDecision → ReserveResponse × Event
  | ReserveDecision.reject r => (r, db)
  | ReserveDecision.rejectExpiring r => (r, expireUpdate db now)
  | ReserveDecision.attempt expected u r =>
      if db.capture_count = expected then (r, applyUpdate db u)
      else (conflictResponse, db)

/-- One full invocation of the Supabase reserve-capture handler run alone:
the snapshot read and the write see the same database state. -/
def reserveCapture (db : Option Event) (now : Int) :
    ReserveResponse × Option Event :=
  match db with
  | none => (notFoundResponse, none)
  | some e =>
      let (r, e2) := commitDecision e now (reserveDecision e now)
      (r, some e2)

/-- Two racing invocations of the Supabase handler on the same event: both
read the same snapshot e before either writes, then the first write
commits, then the second write commits against the updated row.  Returns
both responses and the final row. -/
def reserveRace (e : Event) (now1 now2 : Int) :
    ReserveResponse × ReserveResponse × Event :=
  let d1 := reserveDecision e now1
  let d2 := reserveDecision e now2
  let (r1, e1) := commitDecision e now1 d1
  let (r2, e2) := commitDecision e1 now2 d2
  (r1, r2, e2)

/-!
Firebase model: reserveCapture.ts and utils/validation.ts.  The Firestore
Event document uses camelCase fields, and reservedCount is an optional
field read through the pattern (event.reservedCount || 0).
-/

/-- One Firestore event document, camelCase fields as in shared/types. -/
structure FbEvent where
  status : EventStatus
  startDate : Int
  endDate : Int
  captureCount : Int
  photoLimit : Int
  reservedCount : Option Int
  galleryExpiresAt : Option Int
  analytics : Option Analytics
deriving DecidableEq, Repr

/-- isEventActive from utils/validation.ts: active status and now within
the start/end window (both bounds inclusive). -/
def isEventActive (e : FbEvent) (now : Int) : Bool :=
  decide (e.status = EventStatus.active ∧ e.startDate ≤ now ∧ now ≤ e.endDate)

/-- hasReachedLimit from utils/validation.ts. -/
def hasReachedLimit (e : FbEvent) : Bool :=
  decide (e.photoLimit ≤ e.captureCount)

/-- hasAvailableSlots from utils/validation.ts: captureCount plus the
reserved slots (defaulting to 0) must stay below photoLimit. -/
def hasAvailableSlots (e : FbEvent) : Bool :=
  decide (e.captureCount + e.reservedCount.getD 0 < e.photoLimit)

/-- Result of validateCapture. -/
structure CaptureValidationResult where
  canCapture : Bool
  reason : Option String
  eventInfo : Option EventInfo
deriving DecidableEq, Repr

/-- The event summary validateCapture attaches to its results. -/
def fbInfo (e : FbEvent) : EventInfo :=
  { captureCount := e.captureCount, photoLimit := e.photoLimit,
    status := e.status }

/-- validateCapture from utils/validation.ts, translated branch by branch:
cleaned, expired, not active (split into not started / ended by the start
date), limit reached, no available slots, else capture allowed. -/
def validateCapture (event : Option FbEvent) (now : Int) :
    CaptureValidationResult :=
  match event with
  | none =>
      { canCapture := false, reason := some "Event not found",
        eventInfo := none }
  | some e =>
      if e.status = EventStatus.cleaned then
        { canCapture := false, reason := some "Event has been cleaned up",
          eventInfo := some (fbInfo e) }
      else if e.status = EventStatus.expired then
        { canCapture := false, reason := some "Event has expired",
          eventInfo := some (fbInfo e) }
      else if isEventActive e now = false then
        if now < e.startDate then
          { canCapture := false, reason := some "Event has not started yet",
            eventInfo := some (fbInfo e) }
        else
          { canCapture := false, reason := some "Event has ended",
            eventInfo := some (fbInfo e) }
      else if hasReachedLimit e then
        { canCapture := false, reason := some "Photo limit reached",
          eventInfo := some (fbInfo e) }
      else if hasAvailableSlots e = false then
        { canCapture := false,
          reason := some "No available slots (some are reserved)",
          eventInfo := some (fbInfo e) }
      else
        { canCapture := true, reason := none, eventInfo := some (fbInfo e) }

/-- shouldExpireEvent from utils/validation.ts: an active event expires
when its end date has passed or its photo limit is reached. -/
def shouldExpireEvent (e : FbEvent) (now : Int) : Bool :=
  if e.status ≠ EventStatus.active then false
  else decide (e.endDate < now) || hasReachedLimit e

/-- Error codes of the HttpsError values thrown by the Firebase callables. -/
inductive FnError where
  | notFound
  | invalidArgument
  | internal
deriving DecidableEq, Repr

/-- Body of a Firebase callable response. -/
structure FbResult where
  success : Bool
  message : Option String
  captureNumber : Option Int
  eventInfo : Option EventInfo
deriving DecidableEq, Repr

/-- Builds the analytics blob all three Firebase callables write: default
when absent, then totalCaptures incremented, lastCaptureAt and peakHour
refreshed from now. -/
def bumpAnalytics (a : Option Analytics) (now : Int) : Analytics :=
  let currentHour := hourOf now
  let a0 := a.getD
    { totalCaptures := 0, peakHour := currentHour, lastCaptureAt := now }
  { totalCaptures := a0.totalCaptures + 1, peakHour := currentHour,
    lastCaptureAt := now }

/-- Applies the status / galleryExpiresAt part of the Firebase update: when
shouldExpireEvent holds on the updated document, status becomes expired and
galleryExpiresAt is set 15 days ahead. -/
def fbMaybeExpire (e : FbEvent) (now : Int) : FbEvent :=
  if shouldExpireEvent e now then
    { e with status := EventStatus.expired,
             galleryExpiresAt := some (now + 15 * msPerDay) }
  else e

/-- The Firebase reserveCapture callable: validates, then increments
captureCount, refreshes analytics, and auto-expires when the updated
document satisfies shouldExpireEvent.  A missing event is a thrown
not-found error. -/
def reserveCaptureFb (db : Option FbEvent) (now : Int) :
    Except FnError (FbResult × FbEvent) :=
  match db with
  | none => Except.error FnError.notFound
  | some event =>
      let v := validateCapture (some event) now
      if v.canCapture = false then
        Except.ok
          ({ success := false, message := v.reason, captureNumber := none,
             eventInfo := v.eventInfo }, event)
      else
        let newCaptureCount := event.captureCount + 1
        let updated : FbEvent :=
          { event with captureCount := newCaptureCount,
                       analytics := some (bumpAnalytics event.analytics now) }
        let updated2 := fbMaybeExpire updated now
        Except.ok
          ({ success := true, message := none,
             captureNumber := some newCaptureCount,
             eventInfo := some
               { captureCount := newCaptureCount,
                 photoLimit := event.photoLimit,
                 status := updated2.status } }, updated2)

/-- The Firebase reserveCaptureWithBuffer callable: validates, then
increments reservedCount only, answering with the provisional slot number
captureCount + newReservedCount. -/
def reserveCaptureWithBuffer (db : Option FbEvent) (now : Int) :
    Except FnError (FbResult × FbEvent) :=
  match db with
  | none => Except.error FnError.notFound
  | some event =>
      let v := validateCapture (some event) now
      if v.canCapture = false then
        Except.ok
          ({ success := false, message := v.reason, captureNumber := none,
             eventInfo := v.eventInfo }, event)
      else
        let newReservedCount := event.reservedCount.getD 0 + 1
        let updated : FbEvent :=
          { event with reservedCount := some newReservedCount }
        Except.ok
          ({ success := true, message := none,
             captureNumber := some (event.captureCount + newReservedCount),
             eventInfo := some (fbInfo event) }, updated)

/-- The Firebase confirmCapture callable: no validation at all; increments
captureCount, decrements reservedCount clamped at zero, refreshes
analytics, and applies the same shouldExpireEvent check as reserveCapture
on the updated document. -/
def confirmCapture (db : Option FbEvent) (now : Int) :
    Except FnError (FbResult × FbEvent) :=
  match db with
  | none => Except.error FnError.notFound
  | some event =>
      let newCaptureCount := event.captureCount + 1
      let newReservedCount := max 0 (event.reservedCount.getD 0 - 1)
      let updated : FbEvent :=
        { event with captureCount := newCaptureCount,
                     reservedCount := some newReservedCount,
                     analytics := some (bumpAnalytics event.analytics now) }
      let updated2 := fbMaybeExpire updated now
      Except.ok
        ({ success := true, message := none,
           captureNumber := some newCaptureCount,
           eventInfo := some
             { captureCount := newCaptureCount,
               photoLimit := event.photoLimit,
               status := updated2.status } }, updated2)

/-- Success flag of a callable outcome, none when an error was thrown. -/
def okSuccess (x : Except FnError (FbResult × FbEvent)) : Option Bool :=
  match x with
  | Except.ok (r, _) => some r.success
  | Except.error _ => none

/-- Capture number of a callable outcome, none when an error was thrown. -/
def okCaptureNumber (x : Except FnError (FbResult × FbEvent)) :
    Option (Option Int) :=
  match x with
  | Except.ok (r, _) => some r.captureNumber
  | Except.error _ => none

/-- Post-state of a callable outcome, none when an error was thrown. -/
def okState (x : Except FnError (FbResult × FbEvent)) : Option FbEvent :=
  match x with
  | Except.ok (_, e) => some e
  | Except.error _ => none

/-- The slot-accounting invariant of the specification on a Firestore
document: captureCount plus reservedCount stays within photoLimit. -/
def slotInvFb (e : FbEvent) : Bool :=
  decide (e.captureCount + e.reservedCount.getD 0 ≤ e.photoLimit)

/-- The slot-accounting invariant on a Supabase row. -/
def slotInv (e : Event) : Bool :=
  decide (e.capture_count + e.reserved_count ≤ e.photo_limit)

/-!
Cleanup model: supabase/functions/auto-cleanup/index.ts.  The database and
storage state is a list of events, each carrying the storage objects and
capture rows that belong to it.
-/

/-- One event together with its owned resources: the count of photo
objects under its storage prefix, whether its cached ZIP object exists,
and the count of its capture rows. -/
structure CleanEvent where
  status : EventStatus
  gallery_expires_at : Option Int
  photos : Nat
  hasZip : Bool
  captures : Nat
deriving DecidableEq, Repr

/-- The selection filter of the cleanup query: status equals expired and
gallery_expires_at is strictly before now.  A null gallery_expires_at
never satisfies the lt comparison. -/
def cleanupSelects (e : CleanEvent) (now : Int) : Bool :=
  decide (e.status = EventStatus.expired) &&
    (match e.gallery_expires_at with
     | some t => decide (t < now)
     | none => false)

/-- Per-event cleanup: photos removed, ZIP object removed, capture rows
removed, status set to cleaned. -/
def cleanOne (e : CleanEvent) : CleanEvent :=
  { e with photos := 0, hasZip := false, captures := 0,
           status := EventStatus.cleaned }

/-- The summary row the cleanup function persists after the batch. -/
structure CleanupSummary where
  events_processed : Nat
  events_cleaned_success : Nat
  events_cleaned_failed : Nat
  total_photos_deleted : Nat
  total_zips_deleted : Nat
deriving DecidableEq, Repr

/-- One invocation of the auto-cleanup function: every event matched by
the query is cleaned and counted; every other event is left untouched.
Storage deletions are modelled as removing exactly the objects present,
so total_zips_deleted counts the selected events that still had a ZIP. -/
def autoCleanup (db : List CleanEvent) (now : Int) :
    CleanupSummary × List CleanEvent :=
  let selected := db.filter (fun e => cleanupSelects e now)
  ({ events_processed := selected.length,
     events_cleaned_success := selected.length,
     events_cleaned_failed := 0,
     total_photos_deleted := (selected.map (fun e => e.photos)).sum,
     total_zips_deleted := (selected.filter (fun e => e.hasZip)).length },
   db.map (fun e => if cleanupSelects e now then cleanOne e else e))

/-- The all-zero summary of a run that found nothing to clean. -/
def zeroSummary : CleanupSummary :=
  { events_processed := 0, events_cleaned_success := 0,
    events_cleaned_failed := 0, total_photos_deleted := 0,
    total_zips_deleted := 0 }

/-- A default row for positional access in cleanup statements. -/
def blankCleanEvent : CleanEvent :=
  { status := EventStatus.draft, gallery_expires_at := none,
    photos := 0, hasZip := false, captures := 0 }

/-!
ZIP cache decision.  Both album-ZIP services first look for the cached
archive object; the decision whether to reuse it or rebuild depends only
on whether the object exists and on its age.
-/

/-- Whether the album-ZIP service reuses the cached archive or rebuilds. -/
inductive ZipDecision where
  | cached
  | rebuild
deriving DecidableEq, Repr

/-- Cache check of the Firebase generateAlbumZip function: reuse the
archive only when it exists and its age is under 24 hours.  The source
compares ageHours < 24 with ageHours = (now - createdAt) / 3600000, which
on integer timestamps is exactly now - createdAt < 24 * 3600000. -/
def fbZipCacheDecision (zipExists : Bool) (zipCreatedAt now : Int) :
    ZipDecision :=
  if zipExists && decide (now - zipCreatedAt < 24 * 60 * 60 * 1000) then
    ZipDecision.cached
  else ZipDecision.rebuild

/-- Cache check of the Supabase generate-album-zip edge function: it only
asks the storage API for a signed URL of the archive object, which
succeeds exactly when the object exists; the age of the archive is never
consulted. -/
def sbZipCacheDecision (zipExists : Bool) (_zipCreatedAt _now : Int) :
    ZipDecision :=
  if zipExists then ZipDecision.cached else ZipDecision.rebuild

/-!
Theorems.
-/

/-- Written from the wording of the specification, for comparison with the
embedded handler: the preconditions in the spec order (event exists,
status active, now at or after start_date, now at or before end_date,
capture_count below photo_limit), each failure giving its own message. -/
def specPreconditionMessage (db : Option Event) (now : Int) : Option String :=
  match db with
  | none => some "Event not found"
  | some e =>
      if e.status = EventStatus.active then
        if e.start_date ≤ now then
          if now ≤ e.end_date then
            if e.capture_count < e.photo_limit then none
            else some "Photo limit reached"
          else some "Event has ended"
        else some "Event has not started yet"
      else some "Event is not active"

/-- C3: the reservation preconditions are checked in the fixed order of the
spec, each failing check answering with its own distinct message, returned
as a response value of the handler rather than thrown; the handler
succeeds exactly when no precondition fails. -/
theorem reserve_precondition_order (db : Option Event) (now : Int) :
    ((reserveCapture db now).1.message = specPreconditionMessage db now) ∧
    ((reserveCapture db now).1.success = true ↔
      specPreconditionMessage db now = none) ∧
    List.Pairwise (fun a b => a ≠ b)
      ["Event not found", "Event is not active", "Event has not started yet",
       "Event has ended", "Photo limit reached"] := by
  refine ⟨?_, ?_, by decide⟩ <;>
  · cases db with
    | none => simp [reserveCapture, specPreconditionMessage, notFoundResponse]
    | some e =>
        simp only [reserveCapture, specPreconditionMessage, reserveDecision]
        split_ifs <;>
          simp_all [commitDecision, conflictResponse, applyUpdate,
            expireUpdate] <;>
          omega

/-- C1: when every precondition holds, a reservation succeeds, increments
capture_count by exactly one, and answers with captureNumber equal to the
new capture_count; when the post-increment count equals photo_limit the
same update also sets status to expired and gallery_expires_at to
now + 15 days, and otherwise leaves status and gallery untouched; the
response reports the resulting status. -/
theorem reserve_success_increments (e : Event) (now : Int)
    (hact : e.status = EventStatus.active)
    (hstart : e.start_date ≤ now)
    (hend : now ≤ e.end_date)
    (hlim : e.capture_count < e.photo_limit) :
    (reserveCapture (some e) now).1.success = true ∧
    ∃ e2 : Event, (reserveCapture (some e) now).2 = some e2 ∧
      e2.capture_count = e.capture_count + 1 ∧
      (reserveCapture (some e) now).1.captureNumber = some e2.capture_count ∧
      (reserveCapture (some e) now).1.eventInfo =
        some { captureCount := e2.capture_count,
               photoLimit := e.photo_limit, status := e2.status } ∧
      (e2.capture_count = e.photo_limit →
        e2.status = EventStatus.expired ∧
        e2.gallery_expires_at = some (now + 15 * msPerDay)) ∧
      (e2.capture_count ≠ e.photo_limit →
        e2.status = e.status ∧
        e2.gallery_expires_at = e.gallery_expires_at) := by
  have h2 : ¬ now < e.start_date := not_lt.mpr hstart
  have h3 : ¬ e.end_date < now := not_lt.mpr hend
  have h4 : ¬ e.photo_limit ≤ e.capture_count := not_le.mpr hlim
  by_cases hexp : e.photo_limit ≤ e.capture_count + 1
  · have heq : e.capture_count + 1 = e.photo_limit := by omega
    simp [reserveCapture, reserveDecision, commitDecision, applyUpdate,
      hact, h2, h3, h4, hexp, heq]
  · have hne : e.capture_count + 1 ≠ e.photo_limit := by omega
    simp [reserveCapture, reserveDecision, commitDecision, applyUpdate,
      hact, h2, h3, h4, hexp, hne]

/-- A concrete active event used by several witnesses: nine captures
taken out of a limit of ten, window 0 to 100. -/
def eWitness : Event :=
  { status := EventStatus.active, start_date := 0, end_date := 100,
    capture_count := 9, photo_limit := 10, reserved_count := 0,
    gallery_expires_at := none, analytics := none }

/-- Witness for C1 at eWitness and time 50: the preconditions hold and the
reservation succeeds. -/
theorem reserve_success_increments_witness :
    eWitness.status = EventStatus.active ∧
    eWitness.start_date ≤ 50 ∧ (50 : Int) ≤ eWitness.end_date ∧
    eWitness.capture_count < eWitness.photo_limit ∧
    (reserveCapture (some eWitness) 50).1.success = true :=
  ⟨by decide, by decide, by decide, by decide,
    (reserve_success_increments eWitness 50 (by decide) (by decide)
      (by decide) (by decide)).1⟩

/-- C2: two invocations racing on the same event with capture_count N, both
reading the same snapshot before either writes: the first writer succeeds
with captureNumber N + 1; the second write is rejected by the conditional
update keyed on the previously read capture_count, and that caller gets
the retryable conflict response (HTTP 409) as its final answer, with no
internal retry.  The row ends with capture_count N + 1. -/
theorem reserve_race_exactly_one (e : Event) (now1 now2 : Int)
    (hact : e.status = EventStatus.active)
    (hstart1 : e.start_date ≤ now1) (hend1 : now1 ≤ e.end_date)
    (hstart2 : e.start_date ≤ now2) (hend2 : now2 ≤ e.end_date)
    (hlim : e.capture_count < e.photo_limit) :
    (reserveRace e now1 now2).1.success = true ∧
    (reserveRace e now1 now2).1.captureNumber = some (e.capture_count + 1) ∧
    (reserveRace e now1 now2).2.1 = conflictResponse ∧
    (reserveRace e now1 now2).2.1.success = false ∧
    (reserveRace e now1 now2).2.1.httpStatus = 409 ∧
    (reserveRace e now1 now2).2.2.capture_count = e.capture_count + 1 := by
  have h21 : ¬ now1 < e.start_date := not_lt.mpr hstart1
  have h31 : ¬ e.end_date < now1 := not_lt.mpr hend1
  have h22 : ¬ now2 < e.start_date := not_lt.mpr hstart2
  have h32 : ¬ e.end_date < now2 := not_lt.mpr hend2
  have h4 : ¬ e.photo_limit ≤ e.capture_count := not_le.mpr hlim
  have hne : ¬ e.capture_count + 1 = e.capture_count := by omega
  simp [reserveRace, reserveDecision, commitDecision, applyUpdate,
    conflictResponse, hact, h21, h31, h22, h32, h4, hne]

/-- Witness for C2 at eWitness, both calls at time 50. -/
theorem reserve_race_exactly_one_witness :
    eWitness.status = EventStatus.active ∧
    eWitness.capture_count < eWitness.photo_limit ∧
    (reserveRace eWitness 50 50).1.success = true ∧
    (reserveRace eWitness 50 50).2.1.success = false :=
  ⟨by decide, by decide,
    (reserve_race_exactly_one eWitness 50 50 (by decide) (by decide)
      (by decide) (by decide) (by decide) (by decide)).1,
    (reserve_race_exactly_one eWitness 50 50 (by decide) (by decide)
      (by decide) (by decide) (by decide) (by decide)).2.2.2.1⟩

/-- C4: a reservation on an active event after its end_date answers ended
and as a side effect expires the event with gallery_expires_at set to
now + 15 days, leaving the counter untouched; every later reservation on
the expired row fails without touching the row again, so the gallery
expiry is never re-set. -/
theorem reserve_ended_expires_once (e : Event) (now : Int)
    (hact : e.status = EventStatus.active)
    (hstart : e.start_date ≤ now)
    (hend : e.end_date < now) :
    (reserveCapture (some e) now).1.success = false ∧
    (reserveCapture (some e) now).1.message = some "Event has ended" ∧
    ∃ e2 : Event, (reserveCapture (some e) now).2 = some e2 ∧
      e2.status = EventStatus.expired ∧
      e2.gallery_expires_at = some (now + 15 * msPerDay) ∧
      e2.capture_count = e.capture_count ∧
      ∀ now2 : Int, (reserveCapture (some e2) now2).1.success = false ∧
        (reserveCapture (some e2) now2).2 = some e2 := by
  have h2 : ¬ now < e.start_date := not_lt.mpr hstart
  refine ⟨?_, ?_, expireUpdate e now, ?_, ?_, ?_, ?_, ?_⟩ <;>
    simp [reserveCapture, reserveDecision, commitDecision, expireUpdate,
      hact, h2, hend]

/-- Witness for C4: an active event whose end date 100 lies before the
call time 200. -/
theorem reserve_ended_expires_once_witness :
    eWitness.status = EventStatus.active ∧
    eWitness.end_date < 200 ∧
    (reserveCapture (some eWitness) 200).1.message =
      some "Event has ended" :=
  ⟨by decide, by decide,
    (reserve_ended_expires_once eWitness 200 (by decide) (by decide)
      (by decide)).2.1⟩

/-- An active event at its photo limit whose end date has already passed
at time 20. -/
def eLimitEnded : Event :=
  { status := EventStatus.active, start_date := 0, end_date := 10,
    capture_count := 5, photo_limit := 5, reserved_count := 0,
    gallery_expires_at := none, analytics := none }

/-- Counterexample to C6 as stated: this event has capture_count equal to
photo_limit, yet the reservation answers ended rather than limit reached,
and the row is mutated by the auto-expire side effect. -/
theorem limit_reached_counterexample :
    eLimitEnded.capture_count = eLimitEnded.photo_limit ∧
    (reserveCapture (some eLimitEnded) 20).1.message ≠
      some "Photo limit reached" ∧
    (reserveCapture (some eLimitEnded) 20).1.message =
      some "Event has ended" ∧
    (reserveCapture (some eLimitEnded) 20).2 ≠ some eLimitEnded := by
  decide

/-- C6 amended: an event at its photo limit never gets a successful
reservation; when it is active and the call falls inside its date window
the failure is the limit-reached message and the row is left completely
unchanged (earlier checks may answer first outside the window, and the
ended branch mutates status and gallery expiry). -/
theorem limit_reached_amended (e : Event) (now : Int)
    (hlim : e.capture_count = e.photo_limit) :
    (reserveCapture (some e) now).1.success = false ∧
    (e.status = EventStatus.active → e.start_date ≤ now → now ≤ e.end_date →
      (reserveCapture (some e) now).1.message = some "Photo limit reached" ∧
      (reserveCapture (some e) now).2 = some e) := by
  constructor
  · simp only [reserveCapture, reserveDecision]
    split_ifs <;> simp [commitDecision, applyUpdate] <;> omega
  · intro h1 h2 h3
    have h2' : ¬ now < e.start_date := not_lt.mpr h2
    have h3' : ¬ e.end_date < now := not_lt.mpr h3
    have h4 : e.photo_limit ≤ e.capture_count := le_of_eq hlim.symm
    simp [reserveCapture, reserveDecision, commitDecision, h1, h2', h3', h4]

/-- An active event at its photo limit, inside its date window at 50. -/
def eFull : Event :=
  { status := EventStatus.active, start_date := 0, end_date := 100,
    capture_count := 5, photo_limit := 5, reserved_count := 0,
    gallery_expires_at := none, analytics := none }

/-- Witness for the amended C6 at eFull and time 50. -/
theorem limit_reached_amended_witness :
    eFull.capture_count = eFull.photo_limit ∧
    (reserveCapture (some eFull) 50).1.success = false :=
  ⟨by decide, (limit_reached_amended eFull 50 (by decide)).1⟩

/-- Characterisation of validateCapture: a capture is allowed exactly when
the event is active, the call time lies in the date window, the counter is
below the limit, and a slot remains once reserved slots are counted. -/
theorem validateCapture_canCapture (e : FbEvent) (now : Int) :
    (validateCapture (some e) now).canCapture = true ↔
      (e.status = EventStatus.active ∧ e.startDate ≤ now ∧ now ≤ e.endDate ∧
       e.captureCount < e.photoLimit ∧
       e.captureCount + e.reservedCount.getD 0 < e.photoLimit) := by
  simp only [validateCapture]
  split_ifs <;>
    simp_all [isEventActive, hasReachedLimit, hasAvailableSlots]

/-- A Firestore event at its photo limit with no outstanding reserved
slots: the slot invariant holds with equality. -/
def eConfirmFull : FbEvent :=
  { status := EventStatus.active, startDate := 0, endDate := 100,
    captureCount := 5, photoLimit := 5, reservedCount := some 0,
    galleryExpiresAt := none, analytics := none }

/-- Counterexample to C5 as stated: the slot invariant holds on
eConfirmFull, its status has left draft, yet the confirm operation
succeeds and leaves a state violating
capture_count + reserved_count ≤ photo_limit. -/
theorem slot_invariant_counterexample :
    slotInvFb eConfirmFull = true ∧
    eConfirmFull.status ≠ EventStatus.draft ∧
    okSuccess (confirmCapture (some eConfirmFull) 10) = some true ∧
    (okState (confirmCapture (some eConfirmFull) 10)).map slotInvFb =
      some false := by
  decide

/-- C5 amended: once status has left draft, the Firebase reserve and the
buffer reserve preserve capture_count + reserved_count ≤ photo_limit; the
confirm operation preserves it only when at least one slot is reserved;
and the Supabase direct reservation preserves it when reserved_count is
zero (its validation never reads reserved_count). -/
theorem slot_invariant_amended :
    (∀ (e : FbEvent) (now : Int), e.status ≠ EventStatus.draft →
      slotInvFb e = true →
      (okState (reserveCaptureFb (some e) now)).map slotInvFb =
        some true) ∧
    (∀ (e : FbEvent) (now : Int), e.status ≠ EventStatus.draft →
      slotInvFb e = true →
      (okState (reserveCaptureWithBuffer (some e) now)).map slotInvFb =
        some true) ∧
    (∀ (e : FbEvent) (now : Int), e.status ≠ EventStatus.draft →
      slotInvFb e = true → 0 < e.reservedCount.getD 0 →
      (okState (confirmCapture (some e) now)).map slotInvFb = some true) ∧
    (∀ (e : Event) (now : Int), e.status ≠ EventStatus.draft →
      slotInv e = true → e.reserved_count = 0 →
      ((reserveCapture (some e) now).2).map slotInv = some true) := by
  refine ⟨?_, ?_, ?_, ?_⟩
  · intro e now _ hinv
    cases hv : (validateCapture (some e) now).canCapture with
    | false => simp_all [reserveCaptureFb, okState, slotInvFb]
    | true =>
        obtain ⟨ha, hs, he, hl, hav⟩ := (validateCapture_canCapture e now).mp hv
        simp [reserveCaptureFb, hv, okState, fbMaybeExpire, slotInvFb]
        split_ifs <;> simp <;> omega
  · intro e now _ hinv
    cases hv : (validateCapture (some e) now).canCapture with
    | false => simp_all [reserveCaptureWithBuffer, okState, slotInvFb]
    | true =>
        obtain ⟨ha, hs, he, hl, hav⟩ := (validateCapture_canCapture e now).mp hv
        simp [reserveCaptureWithBuffer, hv, okState, slotInvFb]
        omega
  · intro e now _ hinv hres
    simp only [confirmCapture, okState, Option.map]
    simp only [slotInvFb] at hinv ⊢
    simp only [fbMaybeExpire]
    split_ifs <;> simp_all <;> omega
  · intro e now _ hinv hres
    have hinv2 : e.capture_count + e.reserved_count ≤ e.photo_limit := by
      simpa [slotInv] using hinv
    simp only [reserveCapture, reserveDecision]
    split_ifs <;>
      simp [commitDecision, applyUpdate, expireUpdate, slotInv, hres] <;>
      omega

/-- A Firestore event with one outstanding reserved slot. -/
def eBuffered : FbEvent :=
  { status := EventStatus.active, startDate := 0, endDate := 100,
    captureCount := 3, photoLimit := 5, reservedCount := some 1,
    galleryExpiresAt := none, analytics := none }

/-- Witness for the amended C5: confirming a capture on eBuffered, which
has one reserved slot, keeps the invariant. -/
theorem slot_invariant_amended_witness :
    slotInvFb eBuffered = true ∧
    (okState (confirmCapture (some eBuffered) 10)).map slotInvFb =
      some true :=
  ⟨by decide,
    slot_invariant_amended.2.2.1 eBuffered 10 (by decide) (by decide)
      (by decide)⟩

/-- A map that fixes every element of a list leaves the list unchanged. -/
theorem map_fix_of_mem {A : Type} (f : A → A) :
    ∀ l : List A, (∀ a ∈ l, f a = a) → l.map f = l := by
  intro l
  induction l with
  | nil => intro h; rfl
  | cons x xs ih =>
      intro h
      simp only [List.map_cons]
      rw [h x (by simp), ih (fun a ha => h a (by simp [ha]))]

/-- C7: one cleanup run touches exactly the events with status expired and
gallery_expires_at strictly before now; every other event, in particular
one whose gallery expiry lies in the future or whose status is already
cleaned, keeps its row, photos, ZIP and captures unchanged; and an
immediate second run finds nothing, reporting the all-zero summary and
leaving the state exactly as it was. -/
theorem cleanup_frame_idempotent (db : List CleanEvent) (now : Int) :
    ((autoCleanup db now).2.length = db.length) ∧
    (∀ i : Nat,
      ¬ ((db.getD i blankCleanEvent).status = EventStatus.expired ∧
         ∃ t : Int, (db.getD i blankCleanEvent).gallery_expires_at = some t ∧
           t < now) →
      (autoCleanup db now).2.getD i blankCleanEvent =
        db.getD i blankCleanEvent) ∧
    (autoCleanup ((autoCleanup db now).2) now =
      (zeroSummary, (autoCleanup db now).2)) := by
  have hsel_of : ∀ e : CleanEvent,
      ¬ (e.status = EventStatus.expired ∧
         ∃ t : Int, e.gallery_expires_at = some t ∧ t < now) →
      cleanupSelects e now = false := by
    intro e hnot
    simp only [cleanupSelects]
    cases hst : e.gallery_expires_at with
    | none => simp
    | some t =>
        simp only [Bool.and_eq_false_iff]
        by_cases hd : e.status = EventStatus.expired
        · right
          have hnt : ¬ t < now := fun h => hnot ⟨hd, t, hst, h⟩
          simpa using hnt
        · left
          simpa using hd
  refine ⟨by simp [autoCleanup], ?_, ?_⟩
  · intro i hnot
    simp only [autoCleanup]
    by_cases hi : i < db.length
    · have hi2 : i <
          (db.map (fun e =>
            if cleanupSelects e now = true then cleanOne e else e)).length := by
        simpa using hi
      rw [List.getD_eq_getElem _ _ hi2, List.getElem_map]
      rw [List.getD_eq_getElem _ _ hi] at hnot ⊢
      rw [hsel_of db[i] hnot]
      simp
    · have hlen : db.length ≤ i := le_of_not_lt hi
      rw [List.getD_eq_default, List.getD_eq_default]
      · exact hlen
      · simpa using hlen
  · have hall : ∀ e2 ∈ (autoCleanup db now).2,
        cleanupSelects e2 now = false := by
      intro e2 he2
      simp only [autoCleanup, List.mem_map] at he2
      obtain ⟨e, _, rfl⟩ := he2
      by_cases hsel : cleanupSelects e now = true
      · rw [if_pos hsel]
        simp [cleanupSelects, cleanOne]
      · rw [if_neg hsel]
        simpa using hsel
    have hfil : ((autoCleanup db now).2).filter
        (fun e => cleanupSelects e now) = [] := by
      apply List.filter_eq_nil_iff.mpr
      intro e2 he2
      simp [hall e2 he2]
    have hmap : ((autoCleanup db now).2).map
        (fun e => if cleanupSelects e now = true then cleanOne e else e) =
        (autoCleanup db now).2 := by
      apply map_fix_of_mem
      intro e2 he2
      rw [if_neg]
      simp [hall e2 he2]
    conv_lhs => rw [autoCleanup]
    rw [hfil, hmap]
    simp [zeroSummary]

/-- A concrete cleanup state: an expired event past its gallery expiry, an
expired event whose gallery expiry is still ahead, and a cleaned event. -/
def cleanDbW : List CleanEvent :=
  [ { status := EventStatus.expired, gallery_expires_at := some 50,
      photos := 3, hasZip := true, captures := 3 },
    { status := EventStatus.expired, gallery_expires_at := some 200,
      photos := 2, hasZip := false, captures := 2 },
    { status := EventStatus.cleaned, gallery_expires_at := some 10,
      photos := 0, hasZip := false, captures := 0 } ]

/-- Witness for C7: at time 100 the event with a future gallery expiry is
untouched, and a second immediate run reports the all-zero summary and
changes nothing. -/
theorem cleanup_frame_idempotent_witness :
    (autoCleanup cleanDbW 100).2.getD 1 blankCleanEvent =
      cleanDbW.getD 1 blankCleanEvent ∧
    autoCleanup ((autoCleanup cleanDbW 100).2) 100 =
      (zeroSummary, (autoCleanup cleanDbW 100).2) :=
  ⟨(cleanup_frame_idempotent cleanDbW 100).2.1 1 (by
      rintro ⟨-, t, ht, hlt⟩
      have htv : t = 200 := by
        simpa [cleanDbW, blankCleanEvent] using ht.symm
      omega),
   (cleanup_frame_idempotent cleanDbW 100).2.2⟩

/-- C8 evaluated at the failing input, together with the exact Firebase
policy: an archive created at time 0 and requested 25 hours later is
rebuilt by the Firebase function but returned as cached by the Supabase
port, which never consults the age of the archive; in general the
Firebase function reuses the cache exactly for an existing archive
younger than 24 hours. -/
theorem zip_cache_divergence :
    fbZipCacheDecision true 0 (25 * 60 * 60 * 1000) = ZipDecision.rebuild ∧
    sbZipCacheDecision true 0 (25 * 60 * 60 * 1000) = ZipDecision.cached ∧
    fbZipCacheDecision true 0 (23 * 60 * 60 * 1000) = ZipDecision.cached ∧
    fbZipCacheDecision false 0 (23 * 60 * 60 * 1000) =
      ZipDecision.rebuild ∧
    (∀ (ex : Bool) (c n : Int),
      fbZipCacheDecision ex c n = ZipDecision.cached ↔
        (ex = true ∧ n - c < 24 * 60 * 60 * 1000)) := by
  refine ⟨by decide, by decide, by decide, by decide, ?_⟩
  intro ex c n
  cases ex <;> simp [fbZipCacheDecision]

/-- C9: the buffer variant increments reserved_count only, answering with
the provisional slot number capture_count + new reserved_count; the
confirm operation increments capture_count, decrements reserved_count
clamped at zero, and applies the same expiry check shouldExpireEvent as
the direct reservation path to its updated document. -/
theorem buffer_reserve_confirm (e : FbEvent) (now : Int)
    (hv : (validateCapture (some e) now).canCapture = true) :
    (∃ r : FbResult, ∃ e2 : FbEvent,
      reserveCaptureWithBuffer (some e) now = Except.ok (r, e2) ∧
      r.success = true ∧
      e2.captureCount = e.captureCount ∧
      e2.reservedCount = some (e.reservedCount.getD 0 + 1) ∧
      r.captureNumber =
        some (e.captureCount + (e.reservedCount.getD 0 + 1))) ∧
    (∀ (e3 : FbEvent) (t : Int), ∃ r2 : FbResult, ∃ e4 : FbEvent,
      confirmCapture (some e3) t = Except.ok (r2, e4) ∧
      r2.success = true ∧
      e4.captureCount = e3.captureCount + 1 ∧
      e4.reservedCount = some (max 0 (e3.reservedCount.getD 0 - 1)) ∧
      e4.status =
        (if shouldExpireEvent
            { e3 with
                captureCount := e3.captureCount + 1,
                reservedCount := some (max 0 (e3.reservedCount.getD 0 - 1)),
                analytics := some (bumpAnalytics e3.analytics t) } t
         then EventStatus.expired else e3.status)) := by
  constructor
  · refine
      ⟨{ success := true, message := none,
         captureNumber := some (e.captureCount + (e.reservedCount.getD 0 + 1)),
         eventInfo := some (fbInfo e) },
       { e with reservedCount := some (e.reservedCount.getD 0 + 1) },
       ?_, rfl, rfl, rfl, rfl⟩
    simp [reserveCaptureWithBuffer, hv]
  · intro e3 t
    refine ⟨_, _, rfl, rfl, ?_, ?_, ?_⟩ <;>
      simp only [fbMaybeExpire] <;> split_ifs <;> rfl

/-- Witness for C9 at eBuffered: validation passes and the buffer
reservation succeeds. -/
theorem buffer_reserve_confirm_witness :
    (validateCapture (some eBuffered) 10).canCapture = true ∧
    okSuccess (reserveCaptureWithBuffer (some eBuffered) 10) = some true :=
  ⟨by decide, by
    obtain ⟨r, e2, heq, hs, -, -, -⟩ :=
      (buffer_reserve_confirm eBuffered 10 (by decide)).1
    simp [okSuccess, heq, hs]⟩

/-- C10: confirmCapture succeeds for every existing event regardless of
status, dates, or limits, incrementing capture_count by one and clamping
the reserved_count decrement at zero; the only modelled non-success
outcome is the thrown not-found error for a missing event. -/
theorem confirm_always_succeeds (e : FbEvent) (now : Int) :
    okSuccess (confirmCapture (some e) now) = some true ∧
    okCaptureNumber (confirmCapture (some e) now) =
      some (some (e.captureCount + 1)) ∧
    (okState (confirmCapture (some e) now)).map
      (fun e2 => e2.captureCount) = some (e.captureCount + 1) ∧
    (okState (confirmCapture (some e) now)).map
      (fun e2 => e2.reservedCount) =
      some (some (max 0 (e.reservedCount.getD 0 - 1))) ∧
    confirmCapture none now = Except.error FnError.notFound := by
  refine ⟨?_, ?_, ?_, ?_, rfl⟩ <;>
    simp only [confirmCapture, okSuccess, okCaptureNumber, okState,
      fbMaybeExpire] <;>
    split_ifs <;> simp
